import Mathlib

/-!
Verification of the energy-accounting core of the Solar-Simulation
repository (`solar_lib.py`, `solar_sim.py`).

Python floats are modelled as rationals (`ℚ`); the single occurrence of
`float('-inf')` (in the zero-feed policy) is modelled as the bottom
element of `WithBot ℚ`.  Lists model Python lists, and the one mutable
object (`SimpleSystem`) is modelled as explicit state passing with its
fallible methods returning `Except String`.
-/

namespace SolarLib

/-- Function `clamp(n, min_val, max_val)` from `solar_lib.py`:
`return max(min(max_val, n), min_val)`.  Defined over any linear order so
that it can also be applied at `WithBot ℚ` (where `float('-inf')` is `⊥`). -/
def clamp {α : Type} [LinearOrder α] (n min_val max_val : α) : α :=
  max (min max_val n) min_val

/-- Method `SimpleSystem.calculate_ac_production(self, ac_output)`:
for each `i != 0` it appends `(1 * self.timestep) * (1/2) * (ac_output[i] + ac_output[i-1])`,
then inserts `0.0` at the front.  The loop over indices `i ≥ 1` is the
walk over consecutive pairs `(ac_output[i-1], ac_output[i])`, i.e. a
`zipWith` of the list with its own tail. -/
def calculate_ac_production (timestep : ℚ) (ac_output : List ℚ) : List ℚ :=
  0 :: List.zipWith (fun prev val => 1 * timestep * (1/2) * (val + prev)) ac_output ac_output.tail

/-- Method `SimpleSystem.calculate_zero_feed(self)` body:
`[clamp(production, float('-inf'), 0) for production in self.net_energy_produced]`.
The lower bound `float('-inf')` is `⊥` in `WithBot ℚ`. -/
def calculate_zero_feed (net_energy_produced : List ℚ) : List (WithBot ℚ) :=
  net_energy_produced.map (fun production => clamp (production : WithBot ℚ) ⊥ 0)

/-- The accumulating loop of `SimpleSystem.calculate_battery_levels`:
each step computes `new_energy = prev + net[i]` (for `i = 0` the `prev` is
`starting_energy`, otherwise `remaining_energy[i-1]`), clamps it to
`[0, capacity_kwh]` and appends it. -/
def battery_go (capacity_kwh : ℚ) : ℚ → List ℚ → List ℚ
  | _, [] => []
  | prev, x :: xs =>
      let new_energy := clamp (prev + x) 0 capacity_kwh
      new_energy :: battery_go capacity_kwh new_energy xs

/-- Method `SimpleSystem.calculate_battery_levels(self, initial_soc, capacity_kwh)`:
`starting_energy = capacity_kwh * initial_soc`, then the accumulating loop
over `self.net_energy_produced` (the `net` argument here). -/
def calculate_battery_levels (net : List ℚ) (initial_soc capacity_kwh : ℚ) : List ℚ :=
  battery_go capacity_kwh (capacity_kwh * initial_soc) net

/-- Method `SimpleSystem.total_energy(self, vals, timestep)`:
`total = 0`, then for each `i != 0` adds `(1 * timestep) * (1/2) * (vals[i] + vals[i-1])`. -/
def total_energy (vals : List ℚ) (timestep : ℚ) : ℚ :=
  (List.zipWith (fun prev val => 1 * timestep * (1/2) * (val + prev)) vals vals.tail).sum

/-- The net-energy derivation on line 92 of `solar_lib.py`:
`[produced - consumed for produced, consumed in zip(self.ac_production, self.consumption)]`.
Python `zip` truncates to the shorter of the two lists, which is exactly
`List.zipWith`. -/
def net_energy_produced_of (ac_production consumption : List ℚ) : List ℚ :=
  List.zipWith (fun produced consumed => produced - consumed) ac_production consumption

/-- The mutable state of `SimpleSystem` (`solar_lib.py`, lines 55-94).
The pvlib objects (`system`, `location`, `model`) are external
collaborators and are not part of the modelled state; the weather returned
by `location.get_clearsky` is modelled as an opaque rational token.
`__init__` leaves `ac_production` unset (reading it before `run_model`
would raise `AttributeError`); it is modelled here as an `Option` that
starts as `none`, like the fields `__init__` does set to `None`. -/
structure SimpleSystem where
  consumption : List ℚ
  timestep : ℚ
  weather : Option ℚ
  dc_output_kw : Option (List ℚ)
  ac_output_kw : Option (List ℚ)
  ac_production : Option (List ℚ)
  net_energy_produced : Option (List ℚ)
  dirty : Bool
deriving DecidableEq

/-- Constructor `SimpleSystem.__init__`: the weather and every derived series start
absent and the dirty flag starts `True`. -/
def SimpleSystem.init (consumption : List ℚ) (timestep : ℚ) : SimpleSystem :=
  { consumption := consumption, timestep := timestep, weather := none,
    dc_output_kw := none, ac_output_kw := none, ac_production := none,
    net_energy_produced := none, dirty := true }

/-- Method `SimpleSystem.update_weather`: `self.weather = self.location.get_clearsky(self.times)`
then `self.dirty = True`.  The clearsky fetch is an external collaborator,
so its response is taken as the input `fetched_weather`.  Note the cached
derived fields are NOT cleared here. -/
def SimpleSystem.update_weather (fetched_weather : ℚ) (s : SimpleSystem) : SimpleSystem :=
  { s with weather := some fetched_weather, dirty := true }

/-- Method `SimpleSystem.run_model`: raises when no weather has been supplied,
otherwise runs the external pvlib model chain on the weather and caches
every derived series, clearing the dirty flag.  The external model results
`self.model.results.dc` / `self.model.results.ac` (watt series determined
by the weather) are modelled as the function parameters `results_dc` /
`results_ac`. -/
def SimpleSystem.run_model (results_dc results_ac : ℚ → List ℚ) (s : SimpleSystem) :
    Except String SimpleSystem :=
  match s.weather with
  | none => Except.error "the system needs weather data."
  | some w =>
      let dc_output_kw := (results_dc w).map (fun dc => dc / 1000)
      let ac_output_kw := (results_ac w).map (fun ac => ac / 1000)
      let ac_production := calculate_ac_production s.timestep ac_output_kw
      let net := net_energy_produced_of ac_production s.consumption
      Except.ok { s with
        dc_output_kw := some dc_output_kw,
        ac_output_kw := some ac_output_kw,
        ac_production := some ac_production,
        net_energy_produced := some net,
        dirty := false }

/-- Method `SimpleSystem.get_ac_output`: `if self.ac_output_kw is None: self.run_model()`
then `return self.ac_output_kw`.  Only `None`-ness is checked; the dirty
flag is not consulted. -/
def SimpleSystem.get_ac_output (results_dc results_ac : ℚ → List ℚ) (s : SimpleSystem) :
    Except String (SimpleSystem × Option (List ℚ)) :=
  match s.ac_output_kw with
  | some _ => Except.ok (s, s.ac_output_kw)
  | none => (s.run_model results_dc results_ac).map (fun s2 => (s2, s2.ac_output_kw))

/-- Method `SimpleSystem.get_dc_output`, same shape as `get_ac_output`. -/
def SimpleSystem.get_dc_output (results_dc results_ac : ℚ → List ℚ) (s : SimpleSystem) :
    Except String (SimpleSystem × Option (List ℚ)) :=
  match s.dc_output_kw with
  | some _ => Except.ok (s, s.dc_output_kw)
  | none => (s.run_model results_dc results_ac).map (fun s2 => (s2, s2.dc_output_kw))

/-- Method `SimpleSystem.get_net_energy_produced`, same shape as `get_ac_output`. -/
def SimpleSystem.get_net_energy_produced (results_dc results_ac : ℚ → List ℚ)
    (s : SimpleSystem) : Except String (SimpleSystem × Option (List ℚ)) :=
  match s.net_energy_produced with
  | some _ => Except.ok (s, s.net_energy_produced)
  | none => (s.run_model results_dc results_ac).map (fun s2 => (s2, s2.net_energy_produced))

/-- Method `SimpleSystem.get_ac_production`, same shape as `get_ac_output`. -/
def SimpleSystem.get_ac_production (results_dc results_ac : ℚ → List ℚ)
    (s : SimpleSystem) : Except String (SimpleSystem × Option (List ℚ)) :=
  match s.ac_production with
  | some _ => Except.ok (s, s.ac_production)
  | none => (s.run_model results_dc results_ac).map (fun s2 => (s2, s2.ac_production))

end SolarLib

namespace SolarSim

/-- Script `solar_sim.py` line 63:
`costs = [electric_cost * -1 * consumption for consumption in zero_feed]`. -/
def costs (electric_cost : ℚ) (zero_feed : List ℚ) : List ℚ :=
  zero_feed.map (fun consumption => electric_cost * -1 * consumption)

/-- The reported "Total Net Cost Per Day" (`solar_sim.py` line 100):
`sum(costs)`. -/
def total_cost_reported (electric_cost : ℚ) (zero_feed : List ℚ) : ℚ :=
  (costs electric_cost zero_feed).sum

end SolarSim

/-- Concrete external PV-model results used in the `SimpleSystem`
scenarios: the model emits a single watt sample equal to `1000 * weather`,
so the derived kW series is `[weather]`. -/
def c8results : ℚ → List ℚ := fun w => [w * 1000]

/-- State after `__init__` (consumption `[0]`, one-hour timestep) followed
by one `update_weather` whose fetch returned `1`. -/
def c8sys1 : SolarLib.SimpleSystem :=
  SolarLib.SimpleSystem.update_weather 1 (SolarLib.SimpleSystem.init [0] 1)

/-- State after additionally running the model once (all caches filled
from weather `1`). -/
def c8sys2 : SolarLib.SimpleSystem :=
  { consumption := [0], timestep := 1, weather := some 1,
    dc_output_kw := some [1], ac_output_kw := some [1],
    ac_production := some [0], net_energy_produced := some [0], dirty := false }

/-- State after a second `update_weather` whose fetch returned `2`: the
weather changed and the dirty flag is set, but the caches still hold the
series computed from weather `1`. -/
def c8sys3 : SolarLib.SimpleSystem := SolarLib.SimpleSystem.update_weather 2 c8sys2

/-- C10: for all bounds with `lower > upper`, `clamp(n, lower, upper)`
returns the lower bound (and, being a total function, never raises):
`min(max_val, n) ≤ max_val < min_val`, so the outer `max` picks `min_val`. -/
theorem C10_clamp_inverted_bounds (n min_val max_val : ℚ) (h : max_val < min_val) :
    SolarLib.clamp n min_val max_val = min_val := by
  unfold SolarLib.clamp
  exact max_eq_right ((min_le_left _ _).trans h.le)

/-- Witness for C10: `clamp 0 2 1 = 2` with inverted bounds `2 > 1`. -/
theorem C10_clamp_inverted_bounds_witness :
    (1 : ℚ) < 2 ∧ SolarLib.clamp (0 : ℚ) 2 1 = 2 :=
  ⟨by norm_num, C10_clamp_inverted_bounds 0 2 1 (by norm_num)⟩

/-- Element `i` of a `zipWith` of two lists, when `i` is in range of both. -/
theorem zipWith_getD_of_lt (f : ℚ → ℚ → ℚ) :
    ∀ (l₁ l₂ : List ℚ) (i : ℕ), i < l₁.length → i < l₂.length →
      (List.zipWith f l₁ l₂).getD i 0 = f (l₁.getD i 0) (l₂.getD i 0)
  | [], _, i, h₁, _ => absurd h₁ (by simp)
  | _ :: _, [], i, _, h₂ => absurd h₂ (by simp)
  | a :: l₁, b :: l₂, 0, _, _ => by simp
  | a :: l₁, b :: l₂, i + 1, h₁, h₂ => by
      simp only [List.zipWith_cons_cons, List.getD_cons_succ]
      exact zipWith_getD_of_lt f l₁ l₂ i (by simpa using h₁) (by simpa using h₂)

/-- Element `i` of the tail is element `i+1` of the list. -/
theorem tail_getD (l : List ℚ) (i : ℕ) : l.tail.getD i 0 = l.getD (i + 1) 0 := by
  cases l <;> simp

/-- Element `i` of the consecutive-pair `zipWith` of a list with its own
tail pairs elements `i` and `i+1`. -/
theorem zipWith_tail_getD (f : ℚ → ℚ → ℚ) (l : List ℚ) (i : ℕ) (h : i + 1 < l.length) :
    (List.zipWith f l l.tail).getD i 0 = f (l.getD i 0) (l.getD (i + 1) 0) := by
  rw [zipWith_getD_of_lt f l l.tail i (by omega) (by simp [List.length_tail]; omega),
    tail_getD]

/-- C3: for every power series of length ≥ 1 and every `dt`, the derived
energy series has the length of the input, element `0` equal to `0`
regardless of `power[0]`, and element `i > 0` equal to
`dt * 0.5 * (power[i] + power[i-1])`. -/
theorem C3_ac_production_elements (power : List ℚ) (dt : ℚ) (hlen : 1 ≤ power.length) :
    (SolarLib.calculate_ac_production dt power).length = power.length ∧
    (SolarLib.calculate_ac_production dt power).getD 0 0 = 0 ∧
    ∀ i, 0 < i → i < power.length →
      (SolarLib.calculate_ac_production dt power).getD i 0
        = dt * (1/2) * (power.getD i 0 + power.getD (i - 1) 0) := by
  refine ⟨?_, rfl, ?_⟩
  · simp only [SolarLib.calculate_ac_production, List.length_cons, List.length_zipWith,
      List.length_tail]
    omega
  · intro i hi hilen
    obtain ⟨j, rfl⟩ : ∃ j, i = j + 1 := ⟨i - 1, by omega⟩
    simp only [SolarLib.calculate_ac_production, List.getD_cons_succ]
    rw [zipWith_tail_getD _ power j (by omega), Nat.add_sub_cancel]
    ring

/-- Witness for C3 at `power = [0, 2, 4]`, `dt = 1`: the energy series is
`[0, 1, 3]`. -/
theorem C3_ac_production_elements_witness :
    (SolarLib.calculate_ac_production 1 [0, 2, 4]).getD 0 0 = 0 ∧
    (SolarLib.calculate_ac_production 1 [0, 2, 4]).getD 2 0
      = 1 * (1/2) * (([0, 2, 4] : List ℚ).getD 2 0 + ([0, 2, 4] : List ℚ).getD 1 0) :=
  ⟨(C3_ac_production_elements [0, 2, 4] 1 (by norm_num)).2.1,
    (C3_ac_production_elements [0, 2, 4] 1 (by norm_num)).2.2 2 (by norm_num) (by norm_num)⟩

/-- Rewriting `total_energy` as an index-based sum over consecutive pairs. -/
theorem total_energy_eq_range_sum (dt : ℚ) :
    ∀ l : List ℚ, SolarLib.total_energy l dt
      = ((List.range (l.length - 1)).map
          (fun i => dt * (1/2) * (l.getD i 0 + l.getD (i + 1) 0))).sum
  | [] => rfl
  | [_] => by simp [SolarLib.total_energy]
  | x :: y :: tl => by
      have ih := total_energy_eq_range_sum dt (y :: tl)
      simp only [SolarLib.total_energy, List.tail_cons, List.zipWith_cons_cons,
        List.sum_cons] at ih ⊢
      rw [show (x :: y :: tl).length - 1 = ((y :: tl).length - 1) + 1 by simp,
        List.range_succ_eq_map, List.map_cons, List.sum_cons, List.map_map, ih]
      congr 1
      simp only [List.getD_cons_zero, List.getD_cons_succ]
      ring

/-- C4: for every sequence and every `dt`, `total_energy` returns the sum
over consecutive pairs `(v[i], v[i+1])` of `dt * 0.5 * (v[i] + v[i+1])`,
and for sequences of length 0 or 1 it returns `0`. -/
theorem C4_total_energy_trapezoidal (vals : List ℚ) (dt x : ℚ) :
    SolarLib.total_energy vals dt
      = ((List.range (vals.length - 1)).map
          (fun i => dt * (1/2) * (vals.getD i 0 + vals.getD (i + 1) 0))).sum ∧
    SolarLib.total_energy [] dt = 0 ∧
    SolarLib.total_energy [x] dt = 0 :=
  ⟨total_energy_eq_range_sum dt vals, rfl, by simp [SolarLib.total_energy]⟩

/-- C5: `calculate_zero_feed` maps each sample `x` through
`clamp(x, -inf, 0)`: every positive sample becomes `0` and every sample
`≤ 0` passes through unchanged; `[-3, 2, -1]` maps to `[-3, 0, -1]`. -/
theorem C5_zero_feed (net : List ℚ) :
    SolarLib.calculate_zero_feed net
      = net.map (fun x => if 0 < x then (0 : WithBot ℚ) else (x : WithBot ℚ)) ∧
    SolarLib.calculate_zero_feed [-3, 2, -1]
      = [((-3 : ℚ) : WithBot ℚ), ((0 : ℚ) : WithBot ℚ), ((-1 : ℚ) : WithBot ℚ)] := by
  have key : ∀ l : List ℚ, SolarLib.calculate_zero_feed l
      = l.map (fun x => if 0 < x then (0 : WithBot ℚ) else (x : WithBot ℚ)) := by
    intro l
    unfold SolarLib.calculate_zero_feed SolarLib.clamp
    refine List.map_congr_left fun x _ => ?_
    rw [max_eq_left bot_le]
    rcases lt_or_le 0 x with h | h
    · rw [if_pos h, min_eq_left (by exact_mod_cast h.le)]
    · rw [if_neg (not_lt.mpr h), min_eq_right (by exact_mod_cast h)]
  refine ⟨key net, ?_⟩
  rw [key [-3, 2, -1]]
  norm_num

/-- Unfolding equation of the battery loop on a nonempty series. -/
theorem battery_go_cons (cap prev x : ℚ) (xs : List ℚ) :
    SolarLib.battery_go cap prev (x :: xs)
      = SolarLib.clamp (prev + x) 0 cap
        :: SolarLib.battery_go cap (SolarLib.clamp (prev + x) 0 cap) xs := rfl

/-- The battery loop returns one state per net-energy sample. -/
theorem battery_go_length (cap : ℚ) : ∀ (prev : ℚ) (net : List ℚ),
    (SolarLib.battery_go cap prev net).length = net.length
  | _, [] => rfl
  | prev, x :: xs => by
      rw [battery_go_cons, List.length_cons, List.length_cons,
        battery_go_length cap _ xs]

/-- The battery loop satisfies the clamped-recurrence step at every index
`i + 1` in range. -/
theorem battery_go_getD_succ (cap : ℚ) : ∀ (prev : ℚ) (net : List ℚ) (i : ℕ),
    i + 1 < net.length →
      (SolarLib.battery_go cap prev net).getD (i + 1) 0
        = SolarLib.clamp
            ((SolarLib.battery_go cap prev net).getD i 0 + net.getD (i + 1) 0) 0 cap
  | _, [], _, h => absurd h (by simp)
  | _, [_], _, h => absurd h (by simp)
  | prev, x :: y :: ys, 0, _ => by
      rw [battery_go_cons, battery_go_cons]
      simp only [List.getD_cons_succ, List.getD_cons_zero]
  | prev, x :: y :: ys, i + 1, h => by
      rw [battery_go_cons]
      simp only [List.getD_cons_succ]
      exact battery_go_getD_succ cap _ (y :: ys) i (by simpa using h)

/-- Every state the battery loop emits is clamped into `[0, cap]`
(for `0 ≤ cap`). -/
theorem battery_go_mem_bounds (cap : ℚ) (hcap : 0 ≤ cap) :
    ∀ (prev : ℚ) (net : List ℚ) (x : ℚ),
      x ∈ SolarLib.battery_go cap prev net → 0 ≤ x ∧ x ≤ cap
  | _, [], x, hx => absurd hx (by simp [SolarLib.battery_go])
  | prev, y :: ys, x, hx => by
      rw [battery_go_cons] at hx
      rcases List.mem_cons.mp hx with h | h
      · subst h
        unfold SolarLib.clamp
        exact ⟨le_max_right _ _, max_le (min_le_left _ _) hcap⟩
      · exact battery_go_mem_bounds cap hcap _ ys x h

/-- With `cap ≤ 0` the clamp bounds are inverted and every emitted state
collapses to `0`. -/
theorem battery_go_all_zero (cap : ℚ) (hcap : cap ≤ 0) :
    ∀ (prev : ℚ) (net : List ℚ) (x : ℚ),
      x ∈ SolarLib.battery_go cap prev net → x = 0
  | _, [], x, hx => absurd hx (by simp [SolarLib.battery_go])
  | prev, y :: ys, x, hx => by
      rw [battery_go_cons] at hx
      rcases List.mem_cons.mp hx with h | h
      · subst h
        exact max_eq_right ((min_le_left _ _).trans hcap)
      · exact battery_go_all_zero cap hcap _ ys x h

/-- C1: for a net series of length ≥ 1, `capacity_kwh > 0` and
`initial_soc_fraction ∈ [0, 1]`, `calculate_battery_levels` returns the
trajectory with `soc[0] = clamp(frac * cap + net[0], 0, cap)` and
`soc[i] = clamp(soc[i-1] + net[i], 0, cap)` for `i > 0`; for
`net = [-1, -2, 3, -1]`, capacity `5`, fraction `1/2` it returns
`[3/2, 0, 3, 2]`. -/
theorem C1_battery_recurrence (net : List ℚ) (initial_soc_fraction capacity_kwh : ℚ)
    (hlen : 1 ≤ net.length) (hcap : 0 < capacity_kwh)
    (hfrac₀ : 0 ≤ initial_soc_fraction) (hfrac₁ : initial_soc_fraction ≤ 1) :
    (SolarLib.calculate_battery_levels net initial_soc_fraction capacity_kwh).getD 0 0
      = SolarLib.clamp (initial_soc_fraction * capacity_kwh + net.getD 0 0)
          0 capacity_kwh ∧
    (∀ i, 0 < i → i < net.length →
      (SolarLib.calculate_battery_levels net initial_soc_fraction capacity_kwh).getD i 0
        = SolarLib.clamp
            ((SolarLib.calculate_battery_levels net initial_soc_fraction
                capacity_kwh).getD (i - 1) 0 + net.getD i 0) 0 capacity_kwh) ∧
    SolarLib.calculate_battery_levels [-1, -2, 3, -1] (1/2) 5 = [3/2, 0, 3, 2] := by
  refine ⟨?_, ?_, by norm_num [SolarLib.calculate_battery_levels, SolarLib.battery_go,
    SolarLib.clamp, min_def, max_def]⟩
  · obtain ⟨x, xs, rfl⟩ : ∃ x xs, net = x :: xs := by
      cases net with
      | nil => simp at hlen
      | cons a l => exact ⟨a, l, rfl⟩
    show (SolarLib.battery_go _ _ _).getD 0 0 = _
    rw [battery_go_cons]
    simp only [List.getD_cons_zero]
    rw [mul_comm capacity_kwh initial_soc_fraction]
  · intro i hi hilen
    obtain ⟨j, rfl⟩ : ∃ j, i = j + 1 := ⟨i - 1, by omega⟩
    unfold SolarLib.calculate_battery_levels
    rw [battery_go_getD_succ capacity_kwh _ net j hilen, Nat.add_sub_cancel]

/-- Witness for C1 at the spec's end-to-end battery scenario. -/
theorem C1_battery_recurrence_witness :
    SolarLib.calculate_battery_levels [-1, -2, 3, -1] (1/2) 5 = [3/2, 0, 3, 2] :=
  (C1_battery_recurrence [-1, -2, 3, -1] (1/2) 5 (by norm_num) (by norm_num)
    (by norm_num) (by norm_num)).2.2

/-- C2: for every capacity `C > 0`, fraction in `[0, 1]` and net series,
every element of the battery trajectory lies in `[0, C]`. -/
theorem C2_battery_bounds (net : List ℚ) (initial_soc_fraction C : ℚ)
    (hC : 0 < C) (hfrac₀ : 0 ≤ initial_soc_fraction) (hfrac₁ : initial_soc_fraction ≤ 1) :
    ∀ x ∈ SolarLib.calculate_battery_levels net initial_soc_fraction C,
      0 ≤ x ∧ x ≤ C :=
  fun x hx => battery_go_mem_bounds C hC.le _ net x hx

/-- Witness for C2: the first state of the scenario trajectory, `3/2`,
lies in `[0, 5]`. -/
theorem C2_battery_bounds_witness : 0 ≤ (3/2 : ℚ) ∧ (3/2 : ℚ) ≤ 5 :=
  C2_battery_bounds [-1, -2, 3, -1] (1/2) 5 (by norm_num) (by norm_num) (by norm_num)
    (3/2) (by norm_num [SolarLib.calculate_battery_levels, SolarLib.battery_go,
      SolarLib.clamp, min_def, max_def])

/-- C6 counterexample: at `ac_production = [1, 2]` and `consumption = [1]`
(differing lengths) the net-energy derivation does not fail — Python `zip`
silently truncates and the code returns `[0]`, the pointwise difference
over the shorter length. -/
theorem C6_net_energy_counterexample :
    SolarLib.net_energy_produced_of [1, 2] [1] = [0] ∧
    ([1, 2] : List ℚ).length ≠ ([1] : List ℚ).length := by
  norm_num [SolarLib.net_energy_produced_of]

/-- C6 amended: the net-energy derivation never fails; it truncates to the
shorter of the two series and returns the pointwise difference
`produced[i] - consumed[i]` over that common prefix. -/
theorem C6_net_energy_amended (produced consumed : List ℚ) :
    (SolarLib.net_energy_produced_of produced consumed).length
      = min produced.length consumed.length ∧
    ∀ i, i < produced.length → i < consumed.length →
      (SolarLib.net_energy_produced_of produced consumed).getD i 0
        = produced.getD i 0 - consumed.getD i 0 :=
  ⟨List.length_zipWith _ _ _, fun i h₁ h₂ => zipWith_getD_of_lt _ produced consumed i h₁ h₂⟩

/-- Witness for C6 amended at `produced = [1, 2]`, `consumed = [3]`. -/
theorem C6_net_energy_amended_witness :
    (SolarLib.net_energy_produced_of [1, 2] [3]).getD 0 0 = (1 : ℚ) - 3 :=
  (C6_net_energy_amended [1, 2] [3]).2 0 (by norm_num) (by norm_num)

/-- C7 counterexample: `calculate_battery_levels` performs no parameter
validation.  With invalid capacity `-1` it returns the trajectory `[0]`,
and with invalid fraction `2` it returns the trajectory `[5]`; neither
call fails. -/
theorem C7_no_validation_counterexample :
    SolarLib.calculate_battery_levels [1] (1/2) (-1) = [0] ∧ ¬ (0 : ℚ) < -1 ∧
    SolarLib.calculate_battery_levels [1] 2 5 = [5] ∧ ¬ (2 : ℚ) ≤ 1 := by
  norm_num [SolarLib.calculate_battery_levels, SolarLib.battery_go, SolarLib.clamp,
    min_def, max_def]

/-- C7 amended: the battery simulator accepts every capacity and fraction
without error, always returning a trajectory of the series' length; for
`capacity_kwh ≤ 0` the inverted clamp bounds collapse every state to `0`. -/
theorem C7_no_validation (net : List ℚ) (initial_soc capacity_kwh : ℚ)
    (hcap : capacity_kwh ≤ 0) :
    (SolarLib.calculate_battery_levels net initial_soc capacity_kwh).length
      = net.length ∧
    ∀ x ∈ SolarLib.calculate_battery_levels net initial_soc capacity_kwh, x = 0 :=
  ⟨battery_go_length _ _ net, fun x hx => battery_go_all_zero _ hcap _ net x hx⟩

/-- Witness for C7 amended at `net = [1]`, fraction `1/2`, capacity `-1`. -/
theorem C7_no_validation_witness :
    (-1 : ℚ) ≤ 0 ∧
    (SolarLib.calculate_battery_levels [1] (1/2) (-1)).length = ([1] : List ℚ).length :=
  ⟨by norm_num, (C7_no_validation [1] (1/2) (-1) (by norm_num)).1⟩

/-- C8 counterexample: after running the model under weather `1` (caching
the AC series `[1]`) and then updating the weather to `2`, `get_ac_output`
returns the cached stale series `[1]` — the dirty flag is set and the
weather is `2`, yet no recompute is triggered, while a recompute from the
current weather would give `[2]`. -/
theorem C8_stale_cache_counterexample :
    SolarLib.SimpleSystem.get_ac_output c8results c8results c8sys1
      = Except.ok (c8sys2, some [1]) ∧
    c8sys3.dirty = true ∧
    c8sys3.weather = some 2 ∧
    SolarLib.SimpleSystem.get_ac_output c8results c8results c8sys3
      = Except.ok (c8sys3, some [1]) ∧
    (SolarLib.SimpleSystem.run_model c8results c8results c8sys3).map
        SolarLib.SimpleSystem.ac_output_kw = Except.ok (some [2]) ∧
    (some [1] : Option (List ℚ)) ≠ some [2] := by
  refine ⟨?_, rfl, rfl, rfl, ?_, by norm_num⟩
  · simp [SolarLib.SimpleSystem.get_ac_output, SolarLib.SimpleSystem.run_model,
      c8sys1, c8sys2, c8results, SolarLib.SimpleSystem.update_weather,
      SolarLib.SimpleSystem.init, SolarLib.calculate_ac_production,
      SolarLib.net_energy_produced_of, Except.map]
  · simp [SolarLib.SimpleSystem.run_model, c8sys3, c8sys2, c8results,
      SolarLib.SimpleSystem.update_weather, Except.map]

/-- C8 amended: a getter recomputes only when its cached field is `None`
(the dirty flag is never consulted, so a cached value is returned even
after a weather update); a getter called before any weather has been
supplied fails with the missing-weather error. -/
theorem C8_lazy_getter_amended (results_dc results_ac : ℚ → List ℚ)
    (consumption : List ℚ) (timestep : ℚ) (s : SolarLib.SimpleSystem) (v : List ℚ)
    (hv : s.ac_output_kw = some v) :
    SolarLib.SimpleSystem.get_ac_output results_dc results_ac
        (SolarLib.SimpleSystem.init consumption timestep)
      = Except.error "the system needs weather data." ∧
    SolarLib.SimpleSystem.get_ac_output results_dc results_ac s
      = Except.ok (s, some v) := by
  refine ⟨rfl, ?_⟩
  simp only [SolarLib.SimpleSystem.get_ac_output, hv]

/-- Witness for C8 amended: the fully cached state `c8sys2` has
`ac_output_kw = some [1]` and its getter returns exactly that cache. -/
theorem C8_lazy_getter_amended_witness :
    c8sys2.ac_output_kw = some [1] ∧
    SolarLib.SimpleSystem.get_ac_output c8results c8results c8sys2
      = Except.ok (c8sys2, some [1]) :=
  ⟨rfl, (C8_lazy_getter_amended c8results c8results [0] 1 c8sys2 [1] rfl).2⟩

/-- The sum of a list of non-positive rationals is non-positive. -/
theorem list_sum_nonpos : ∀ (l : List ℚ), (∀ x ∈ l, x ≤ 0) → l.sum ≤ 0
  | [], _ => by simp
  | a :: l, h => by
      simp only [List.sum_cons]
      have ha := h a (List.mem_cons_self a l)
      have hl := list_sum_nonpos l (fun x hx => h x (List.mem_cons_of_mem a hx))
      linarith

/-- C9 counterexample: for the non-positive series `[-2, 0]` at `dt = 1`
and price `1`, the reported total cost (`sum(costs)`) is `2`, while
`price * -1 * total_energy(series, dt)` (trapezoidal) is `1` — the report
uses a plain sum, not the trapezoidal integration primitive. -/
theorem C9_cost_counterexample :
    SolarSim.total_cost_reported 1 [-2, 0] = 2 ∧
    (1 : ℚ) * -1 * SolarLib.total_energy [-2, 0] 1 = 1 ∧
    ((-2 : ℚ) ≤ 0 ∧ (0 : ℚ) ≤ 0) ∧ (2 : ℚ) ≠ 1 := by
  norm_num [SolarSim.total_cost_reported, SolarSim.costs, SolarLib.total_energy]

/-- C9 amended: the reported total cost is `price_per_kwh * -1 * sum(series)`
(plain summation of the per-interval samples, not trapezoidal
integration), and it is non-negative for a non-positive series and
non-negative price. -/
theorem C9_cost_amended (price_per_kwh : ℚ) (zero_feed : List ℚ)
    (hp : 0 ≤ price_per_kwh) (hz : ∀ x ∈ zero_feed, x ≤ 0) :
    SolarSim.total_cost_reported price_per_kwh zero_feed
      = price_per_kwh * -1 * zero_feed.sum ∧
    0 ≤ SolarSim.total_cost_reported price_per_kwh zero_feed := by
  have heq : ∀ l : List ℚ, SolarSim.total_cost_reported price_per_kwh l
      = price_per_kwh * -1 * l.sum := by
    intro l
    unfold SolarSim.total_cost_reported SolarSim.costs
    induction l with
    | nil => simp
    | cons a l ih =>
        simp only [List.map_cons, List.sum_cons, ih]
        ring
  refine ⟨heq zero_feed, ?_⟩
  rw [heq zero_feed]
  have hsum : zero_feed.sum ≤ 0 := list_sum_nonpos zero_feed hz
  have hrw : price_per_kwh * -1 * zero_feed.sum
      = price_per_kwh * (-zero_feed.sum) := by ring
  rw [hrw]
  exact mul_nonneg hp (neg_nonneg.mpr hsum)

/-- Witness for C9 amended at price `1` and series `[-1]`. -/
theorem C9_cost_amended_witness :
    SolarSim.total_cost_reported 1 [-1] = 1 * -1 * ([-1] : List ℚ).sum ∧
    0 ≤ SolarSim.total_cost_reported 1 [-1] :=
  C9_cost_amended 1 [-1] (by norm_num)
    (fun x hx => by rw [List.mem_singleton] at hx; simp [hx])
